import Mathlib

/-!
Shallow embedding of `src/core/transformer.py` (AI-LectureForge).

Modelling conventions:
* Python exceptions are modelled with `Except Err`; a `try/except` block is a
  `match` that recovers from the `.error` case.
* Python `float` arithmetic on the small decimal literals of the source
  (0.95, 1.05, 0.1, 0.7, 0.15, 0.05, 0.2) is modelled as exact rational
  arithmetic; `int(x)` on the nonnegative values arising here is `⌊x⌋`.
* The external completion provider, the `TextProcessor` collaborator and the
  prompt strings are collaborators outside the core: an `Env` record supplies
  the outcome of each provider call site (the per-section generation call is
  keyed by the section label, the only part of the prompt the claims depend
  on) together with `clean_text` / `count_words`.
* `json.loads` is modelled by `json_loads`, a parser for the JSON fragment the
  planner produces and consumes (objects, arrays, strings, integers, booleans,
  null; non-integer number literals are outside the modelled fragment).
* Python `str.lower` / `str.strip` / `str.split` are modelled on the ASCII
  alphabet by `lowerStr` / `pyStrip` / `pySplitWs`.
-/

/-- Exceptions raised by the code under consideration. `provider` stands for
any failure of the external completion call (`ProviderError`). -/
inductive Err where
  | provider
  | zeroDivision
  | keyError (k : String)
  | valueError
  | typeError
deriving DecidableEq, Repr

/-- JSON values, as produced by `json.loads` (integer numbers only). -/
inductive Json where
  | null
  | bool (b : Bool)
  | num (n : Int)
  | str (s : String)
  | arr (elems : List Json)
  | obj (fields : List (String × Json))

/- ---------------- string helpers (Python string operations) ---------------- -/

/-- Python `s[:n]` on characters. -/
def pyTake (n : Nat) (s : String) : String := String.mk (s.toList.take n)

/-- Python `s[-n:]` on characters (the trailing `n`-character slice). -/
def pyLastN (n : Nat) (s : String) : String :=
  String.mk (s.toList.drop (s.toList.length - n))

/-- Drop leading whitespace characters. -/
def dropLeadingWs : List Char → List Char
  | [] => []
  | c :: rest => if c.isWhitespace then dropLeadingWs rest else c :: rest

/-- Python `str.strip()` (ASCII whitespace). -/
def pyStrip (s : String) : String :=
  String.mk ((dropLeadingWs (dropLeadingWs s.toList).reverse).reverse)

/-- Python `str.lower()` (ASCII case folding). -/
def lowerStr (s : String) : String := String.mk (s.toList.map Char.toLower)

/-- Split a character list at every separator (like `str.split(sep)`:
adjacent separators yield empty pieces). -/
def splitChars (p : Char → Bool) : List Char → List (List Char)
  | [] => [[]]
  | c :: rest =>
    let r := splitChars p rest
    if p c then [] :: r
    else
      match r with
      | [] => [[c]]
      | g :: gs => (c :: g) :: gs

/-- Python `str.split()` with no argument: split on whitespace runs,
dropping empty pieces. -/
def pySplitWs (s : String) : List String :=
  ((splitChars (fun c => c.isWhitespace) s.toList).map String.mk).filter
    (fun t => t ≠ "")

/-- Substring containment, Python's `pat in hay` on strings. -/
def containsSub (hay pat : List Char) : Bool :=
  (List.range (hay.length + 1)).any (fun i => pat.isPrefixOf (hay.drop i))

/-- Auxiliary scanner for `strCount`: counts non-overlapping occurrences
left-to-right, consuming at least one character per fuel step. -/
def countOccAux : Nat → List Char → List Char → Nat
  | 0, _, _ => 0
  | Nat.succ fuel, hay, pat =>
    match hay with
    | [] => 0
    | c :: rest =>
      if pat.isPrefixOf (c :: rest) then
        1 + countOccAux fuel ((c :: rest).drop pat.length) pat
      else
        countOccAux fuel rest pat

/-- Python `hay.count(pat)`: non-overlapping occurrences; an empty pattern
counts `len(hay) + 1` times. -/
def strCount (hay pat : String) : Nat :=
  let h := hay.toList
  let p := pat.toList
  if p.isEmpty then h.length + 1 else countOccAux h.length h p

/- ---------------- json.loads model ---------------- -/

/-- Skip JSON insignificant whitespace. -/
def skipWs : List Char → List Char
  | [] => []
  | c :: rest =>
    if c = ' ' ∨ c = '\n' ∨ c = '\t' ∨ c = '\r' then skipWs rest else c :: rest

/-- Longest leading digit run. -/
def takeDigits : List Char → (List Char × List Char)
  | [] => ([], [])
  | c :: rest =>
    if c.isDigit then
      let (ds, r) := takeDigits rest
      (c :: ds, r)
    else ([], c :: rest)

/-- Digits to the natural number they denote. -/
def digitsToNat (ds : List Char) : Nat :=
  ds.foldl (fun n c => 10 * n + (c.toNat - 48)) 0

/-- JSON string-escape decoding (the common single-character escapes). -/
def unescapeChar (c : Char) : Char :=
  if c = 'n' then '\n' else if c = 't' then '\t' else if c = 'r' then '\r' else c

/-- Parse a JSON string body after the opening quote; returns the decoded
string and the input after the closing quote. -/
def parseStrBody : List Char → Option (String × List Char)
  | [] => none
  | c :: rest =>
    if c = '\"' then some ("", rest)
    else if c = '\\' then
      match rest with
      | [] => none
      | e :: rest2 =>
        match parseStrBody rest2 with
        | some (s, r) => some (String.mk (unescapeChar e :: s.toList), r)
        | none => none
    else
      match parseStrBody rest with
      | some (s, r) => some (String.mk (c :: s.toList), r)
      | none => none
termination_by l => l.length

def trueChars : List Char := ['t', 'r', 'u', 'e']
def falseChars : List Char := ['f', 'a', 'l', 's', 'e']
def nullChars : List Char := ['n', 'u', 'l', 'l']

mutual

/-- Fuel-indexed JSON value parser (recursive descent). -/
def parseVal : Nat → List Char → Option (Json × List Char)
  | 0, _ => none
  | Nat.succ f, l =>
    match skipWs l with
    | [] => none
    | c :: rest =>
      if c = '\x7b' then
        match skipWs rest with
        | '\x7d' :: r => some (Json.obj [], r)
        | l2 =>
          match parseFields f l2 with
          | some (fs, r) => some (Json.obj fs, r)
          | none => none
      else if c = '[' then
        match skipWs rest with
        | ']' :: r => some (Json.arr [], r)
        | l2 =>
          match parseElems f l2 with
          | some (es, r) => some (Json.arr es, r)
          | none => none
      else if c = '\"' then
        match parseStrBody rest with
        | some (s, r) => some (Json.str s, r)
        | none => none
      else if c = '-' then
        match takeDigits rest with
        | ([], _) => none
        | (ds, r) => some (Json.num (-(digitsToNat ds : Int)), r)
      else if c.isDigit then
        match takeDigits (c :: rest) with
        | (ds, r) => some (Json.num (digitsToNat ds : Int), r)
      else if (c :: rest).take 4 = trueChars then some (Json.bool true, (c :: rest).drop 4)
      else if (c :: rest).take 5 = falseChars then some (Json.bool false, (c :: rest).drop 5)
      else if (c :: rest).take 4 = nullChars then some (Json.null, (c :: rest).drop 4)
      else none

/-- Fuel-indexed parser for array elements (after `[`, first element known to
be present). -/
def parseElems : Nat → List Char → Option (List Json × List Char)
  | 0, _ => none
  | Nat.succ f, l =>
    match parseVal f l with
    | none => none
    | some (j, r) =>
      match skipWs r with
      | ',' :: r2 =>
        match parseElems f r2 with
        | some (es, r3) => some (j :: es, r3)
        | none => none
      | ']' :: r2 => some ([j], r2)
      | _ => none

/-- Fuel-indexed parser for object fields (after `{`, first field known to be
present). -/
def parseFields : Nat → List Char → Option (List (String × Json) × List Char)
  | 0, _ => none
  | Nat.succ f, l =>
    match skipWs l with
    | '\"' :: rest =>
      match parseStrBody rest with
      | some (k, r) =>
        match skipWs r with
        | ':' :: r2 =>
          match parseVal f r2 with
          | some (v, r3) =>
            match skipWs r3 with
            | ',' :: r4 =>
              match parseFields f r4 with
              | some (fs, r5) => some ((k, v) :: fs, r5)
              | none => none
            | '\x7d' :: r4 => some ([(k, v)], r4)
            | _ => none
          | none => none
        | _ => none
      | none => none
    | _ => none

end

/-- Model of Python `json.loads`: parse a complete JSON document, allowing
trailing whitespace only. Returns `none` where `json.loads` raises
`JSONDecodeError`. -/
def json_loads (s : String) : Option Json :=
  match parseVal (2 * s.length + 8) s.toList with
  | some (j, r) => if skipWs r = [] then some j else none
  | none => none

/-- Model of `re.search(r'({[\s\S]*})', content)`: the greedy match runs from
the first `{` to the last `}`, provided the latter comes after the former. -/
def extract_braces (s : String) : Option String :=
  let cs := s.toList
  match cs.findIdx? (fun c => c = '\x7b') with
  | none => none
  | some i =>
    match cs.reverse.findIdx? (fun c => c = '\x7d') with
    | none => none
    | some jr =>
      let j := cs.length - 1 - jr
      if i ≤ j then some (String.mk ((cs.drop i).take (j + 1 - i))) else none

/- ---------------- data model bridge ---------------- -/

/-- One topic, with the fields the pipeline reads
(`title`, `key_concepts`, `duration_minutes`). -/
structure Topic where
  title : String
  key_concepts : List String
  duration_minutes : Nat
deriving DecidableEq, Repr

/-- The lecture structure fields the pipeline reads downstream of the planner
(`title`, `learning_objectives`, `topics`, `key_terms`). -/
structure StructureData where
  title : String
  learning_objectives : List String
  topics : List Topic
  key_terms : List String
deriving DecidableEq, Repr

/-- Python dict field access `fields[k]` (`KeyError` when absent; a duplicate
key keeps the last binding, as in `json.loads`). -/
def getField (fields : List (String × Json)) (k : String) : Except Err Json :=
  match fields.reverse.find? (fun p => p.1 == k) with
  | some p => .ok p.2
  | none => .error (.keyError k)

/-- Expect a JSON string. -/
def getStr : Json → Except Err String
  | .str s => .ok s
  | _ => .error .typeError

/-- Read a list of JSON strings element by element. -/
def getStrs : List Json → Except Err (List String)
  | [] => .ok []
  | j :: rest => do
    let s ← getStr j
    let ss ← getStrs rest
    .ok (s :: ss)

/-- Expect a JSON array of strings. -/
def getStrList : Json → Except Err (List String)
  | .arr es => getStrs es
  | _ => .error .typeError

/-- Read one topic record from JSON. The source accesses these keys
dynamically at its use sites; the data model constrains `duration_minutes` to
a nonnegative integer, and negative durations are outside the modelled
domain. -/
def asTopic : Json → Except Err Topic
  | .obj fields => do
    let t ← getField fields "title" >>= getStr
    let kc ← getField fields "key_concepts" >>= getStrList
    let dm ← getField fields "duration_minutes"
    match dm with
    | .num (Int.ofNat k) => .ok ⟨t, kc, k⟩
    | _ => .error .typeError
  | _ => .error .typeError

/-- Read a list of topic records element by element. -/
def asTopics : List Json → Except Err (List Topic)
  | [] => .ok []
  | j :: rest => do
    let t ← asTopic j
    let ts ← asTopics rest
    .ok (t :: ts)

/-- Read the structure fields the pipeline accesses. The source spreads these
dynamic dict accesses over its call sites (starting with
`structure_data['topics']` right after planning); they are modelled as one
eager projection. -/
def asStructureData : Json → Except Err StructureData
  | .obj fields => do
    let t ← getField fields "title" >>= getStr
    let lo ← getField fields "learning_objectives" >>= getStrList
    let tj ← getField fields "topics"
    let topics ←
      match tj with
      | .arr es => asTopics es
      | _ => .error Err.typeError
    let kt ← getField fields "key_terms" >>= getStrList
    .ok ⟨t, lo, topics, kt⟩
  | _ => .error .typeError

/-- A JSON value is a structurally usable lecture structure when every field
the pipeline reads is present with the right type and there is at least one
topic. -/
def isValidStructure (j : Json) : Bool :=
  match asStructureData j with
  | .ok sd => !sd.topics.isEmpty
  | .error _ => false

/- ---------------- external collaborators ---------------- -/

/-- Outcome of each external call site of one run: the structured-tier
provider call, the line-tier provider call, and the per-section generation
call (keyed by the section label, e.g. `"introduction"`,
`"main_topic_<title>"`, `"practical"`, `"summary"`), plus the
`TextProcessor` collaborator. -/
structure Env where
  clean_text : String → String
  count_words : String → Nat
  structuredCall : Except Err String
  fallbackCall : Except Err String
  gen : String → Except Err String

/- ---------------- word budget ---------------- -/

/-- `self.words_per_minute` (fixed at construction). -/
def words_per_minute : Nat := 130

/-- Python `int(t * f)` for a nonnegative `t` and a nonnegative float
literal `f` read as the exact rational `c`: truncation equals the floor. -/
def int_mul (t : Nat) (c : ℚ) : Nat := Int.toNat ⌊(t : ℚ) * c⌋

/-- `min_words = int(target_words * 0.95)`. -/
def min_acceptable (target_words : Nat) : Nat := int_mul target_words (95 / 100)

/-- `max_words = int(target_words * 1.05)`. -/
def max_acceptable (target_words : Nat) : Nat := int_mul target_words (105 / 100)

/-- The four per-section word quotas. -/
structure SectionWords where
  intro : Nat
  main : Nat
  practical : Nat
  summary : Nat
deriving DecidableEq, Repr

/-- `section_words` dict of `transform_to_lecture` (lines 224-229). -/
def section_words (target_words : Nat) : SectionWords :=
  ⟨int_mul target_words (1 / 10),
   int_mul target_words (7 / 10),
   int_mul target_words (15 / 100),
   int_mul target_words (5 / 100)⟩

/- ---------------- word-count validator ---------------- -/

/-- Log severity emitted by `_validate_word_count`. -/
inductive Sev where
  | silent
  | warningLog
  | errorLog
deriving DecidableEq, Repr

/-- `LARGE_DEVIATION_THRESHOLD = 0.20`. -/
def large_deviation_threshold : ℚ := 20 / 100

/-- `_validate_word_count` (lines 174-187): computes
`deviation = abs(total - target) / target` (a `ZeroDivisionError` when
`target_words = 0`) and logs; it returns the severity it logged at. -/
def validate_word_count (total_words target_words min_words max_words : Nat) :
    Except Err Sev :=
  if target_words = 0 then .error .zeroDivision
  else
    let deviation : ℚ := |(total_words : ℚ) - (target_words : ℚ)| / (target_words : ℚ)
    if deviation > large_deviation_threshold then .ok .errorLog
    else if total_words < min_words ∨ max_words < total_words then .ok .warningLog
    else .ok .silent

/- ---------------- coherence validator ---------------- -/

/-- One warning logged by `_validate_coherence`. -/
inductive Warning where
  | objectiveWarn (objective : String)
  | keyTermWarn (term : String)
  | topicWarn (title : String)
deriving DecidableEq, Repr

/-- `term.lower() in content.lower()`. -/
def containsLower (content term : String) : Bool :=
  containsSub (lowerStr content).toList (lowerStr term).toList

/-- `any(term.lower() in content.lower() for term in objective.split())`. -/
def objectiveCovered (content objective : String) : Bool :=
  (pySplitWs objective).any (fun term => containsLower content term)

/-- `content.lower().count(term.lower())`. -/
def keyTermCount (content term : String) : Nat :=
  strCount (lowerStr content) (lowerStr term)

/-- `any(concept.lower() in content.lower() for concept in topic['key_concepts'])`. -/
def topicCovered (content : String) (t : Topic) : Bool :=
  t.key_concepts.any (fun concept => containsLower content concept)

/-- `_validate_coherence` (lines 625-643): three successive loops appending
one warning per uncovered objective, underused key term, and uncovered
topic. -/
def validate_coherence (content : String) (sd : StructureData) : List Warning :=
  let w1 := sd.learning_objectives.foldl
    (fun acc objective =>
      if objectiveCovered content objective then acc
      else acc ++ [Warning.objectiveWarn objective]) []
  let w2 := sd.key_terms.foldl
    (fun acc term =>
      if keyTermCount content term < 2 then acc ++ [Warning.keyTermWarn term]
      else acc) w1
  let w3 := sd.topics.foldl
    (fun acc t =>
      if topicCovered content t then acc
      else acc ++ [Warning.topicWarn t.title]) w2
  w3

/- ---------------- structure planner ---------------- -/

/-- The JSON record the line-oriented fallback synthesizes for one topic line
(`key_concepts = [topic]`, fixed subtopics, `objective_links = [1]`). -/
def topicJson (title : String) (key_concepts subtopics : List String)
    (minutes : Nat) : Json :=
  Json.obj [("title", Json.str title),
            ("key_concepts", Json.arr (key_concepts.map Json.str)),
            ("subtopics", Json.arr (subtopics.map Json.str)),
            ("duration_minutes", Json.num (minutes : Int)),
            ("objective_links", Json.arr [Json.num 1])]

/-- The hardcoded minimal structure returned when even the line-oriented
tier's provider call fails (lines 469-483). -/
def minimalStructureJson (target_duration : Nat) : Json :=
  Json.obj [("title", Json.str "Lecture Overview"),
            ("learning_objectives",
              Json.arr [Json.str "Understand key concepts",
                        Json.str "Apply knowledge",
                        Json.str "Analyze examples"]),
            ("topics", Json.arr [topicJson "Main Topic" ["Core concept"]
                                  ["Overview"] (target_duration / 2)]),
            ("practical_applications", Json.arr [Json.str "Practical example"]),
            ("key_terms", Json.arr [Json.str "Key term"])]

/-- The structure assembled from the line-oriented response (lines 445-464). -/
def lineStructureJson (title : String) (objectives topics terms : List String)
    (topic_minutes : Nat) : Json :=
  Json.obj [("title", Json.str title),
            ("learning_objectives", Json.arr (objectives.map Json.str)),
            ("topics", Json.arr (topics.map (fun topic =>
              topicJson topic [topic] ["Overview", "Details", "Examples"]
                topic_minutes))),
            ("practical_applications",
              Json.arr [Json.str "Real-world application example",
                        Json.str "Interactive exercise",
                        Json.str "Case study"]),
            ("key_terms", Json.arr (terms.map Json.str))]

/-- `response.content.strip().split('\n')` followed by
`[line.strip() for line in lines if line.strip()]` (lines 431-432). -/
def nonblankLines (s : String) : List String :=
  (((splitChars (fun c => c = '\n') (pyStrip s).toList).map
      (fun l => pyStrip (String.mk l))).filter (fun l => l ≠ ""))

/-- The body of `_generate_fallback_structure`'s `try` block after a
successful provider call (lines 431-464): slice the nonblank lines into
title/objectives/topics/terms and build the structure; computing
`topic_minutes = main_time // len(topics)` raises `ZeroDivisionError` when
the topic slice is empty. -/
def fallback_from_lines (content : String) (target_duration : Nat) :
    Except Err Json :=
  let lines := nonblankLines content
  let title := lines.headD "Lecture"
  let objectives := (((lines.drop 1).take 3).filter (fun o => o ≠ "")).take 3
  let topics := (((lines.drop 4).take 3).filter (fun t => t ≠ "")).take 3
  let terms := (((lines.drop 7).take 3).filter (fun t => t ≠ "")).take 3
  let main_time := int_mul target_duration (7 / 10)
  if topics.length = 0 then .error .zeroDivision
  else .ok (lineStructureJson title objectives topics terms
              (main_time / topics.length))

/-- `_generate_fallback_structure` (lines 405-483): ask the provider for a
line-oriented outline; any exception in the `try` block — the provider call
raising, or the internal `ZeroDivisionError` — is caught by the
`except Exception` and answered with the hardcoded minimal structure. -/
def generate_fallback_structure (env : Env) (text : String)
    (target_duration : Nat) : Json :=
  match env.fallbackCall with
  | .error _ => minimalStructureJson target_duration
  | .ok content =>
    match fallback_from_lines content target_duration with
    | .ok j => j
    | .error _ => minimalStructureJson target_duration

/-- `_generate_detailed_structure` (lines 322-403): call the provider for
JSON (the prompt uses `text[:2000]`); parse the stripped response directly;
on `JSONDecodeError`, parse the outermost brace span; if both fail or the
provider call raised, fall back. A directly parsed value is returned as-is,
without schema validation. -/
def generate_detailed_structure (env : Env) (text : String)
    (target_duration : Nat) : Except Err Json :=
  match env.structuredCall with
  | .error _ => .ok (generate_fallback_structure env text target_duration)
  | .ok raw =>
    let content := pyStrip raw
    match json_loads content with
    | some j => .ok j
    | none =>
      match extract_braces content with
      | some sub =>
        match json_loads sub with
        | some j => .ok j
        | none => .ok (generate_fallback_structure env text target_duration)
      | none => .ok (generate_fallback_structure env text target_duration)

/- ---------------- narrative context and section generation ---------------- -/

/-- The `context` dict seeded at lines 247-254, with the `current_topic` key
added by the main-content loop. `key_terms` is a Python set. -/
structure Ctx where
  current_section : String
  covered_topics : List String
  pending_topics : List String
  key_terms : Finset String
  current_narrative : String
  learning_objectives : List String
  current_topic : Option String := none
deriving DecidableEq

/-- `_generate_section` (lines 485-577): assemble a role-specific prompt from
the structure, quota and context, then make one provider call and return its
text verbatim. The prompt assembly is pure string formatting consumed only by
the external provider; the provider's response is modelled as a function of
the call's section label. -/
def generate_section (env : Env) (section_type : String) (sd : StructureData)
    (target_words : Nat) (include_examples : Bool) (ctx : Option Ctx)
    (is_first is_last : Bool) : Except Err String :=
  env.gen section_type

/-- `total_duration = sum(t['duration_minutes'] for t in topics)`. -/
def totalDuration (topics : List Topic) : Nat :=
  (topics.map Topic.duration_minutes).sum

/-- The dict-building loop of `_generate_main_content` (lines 589-594):
`topic_words[title] = int(target_words * (duration / total_duration))`,
where the division raises `ZeroDivisionError` when `total_duration = 0`. -/
def buildTopicWords (topics : List Topic) (target_words total_duration : Nat) :
    Except Err (List (String × Nat)) :=
  match topics with
  | [] => .ok []
  | t :: rest =>
    if total_duration = 0 then .error Err.zeroDivision
    else do
      let tw ← buildTopicWords rest target_words total_duration
      .ok ((t.title,
        int_mul target_words ((t.duration_minutes : ℚ) / (total_duration : ℚ))) :: tw)

/-- Python dict lookup on the assoc list (`KeyError` when absent; the last
binding wins). -/
def dictGet (d : List (String × Nat)) (k : String) : Except Err Nat :=
  match d.reverse.find? (fun p => p.1 == k) with
  | some p => .ok p.2
  | none => .error (.keyError k)

/-- Python `list.remove`: drop the first occurrence, `ValueError` if absent. -/
def removeFirst : List String → String → Except Err (List String)
  | [], _ => .error .valueError
  | x :: rest, v =>
    if x = v then .ok rest
    else (removeFirst rest v).map (fun l => x :: l)

/-- The per-topic generation loop of `_generate_main_content`
(lines 599-621): for each topic in structure order, look up its quota, move
it from pending to covered, union its key concepts, generate its text, and
re-slice the trailing narrative. -/
def mainLoop (env : Env) (sd : StructureData)
    (topic_words : List (String × Nat)) (include_examples : Bool) :
    List Topic → Ctx → Except Err (List String × Ctx)
  | [], ctx => .ok ([], ctx)
  | topic :: rest, ctx =>
    match dictGet topic_words topic.title with
    | .error e => .error e
    | .ok topic_target =>
      let ctxA := { ctx with current_topic := some topic.title,
                             covered_topics := ctx.covered_topics ++ [topic.title] }
      match removeFirst ctxA.pending_topics topic.title with
      | .error e => .error e
      | .ok pending =>
        let ctxB := { ctxA with pending_topics := pending,
                                key_terms := ctxA.key_terms ∪ topic.key_concepts.toFinset }
        match generate_section env ("main_topic_" ++ topic.title) sd
            topic_target include_examples (some ctxB) false false with
        | .error e => .error e
        | .ok topic_content =>
          let ctxC := { ctxB with current_narrative := pyLastN 1000 topic_content }
          match mainLoop env sd topic_words include_examples rest ctxC with
          | .error e => .error e
          | .ok (restContents, ctxFinal) => .ok (topic_content :: restContents, ctxFinal)

/-- `_generate_main_content` (lines 579-623): allocate per-topic word quotas
proportional to duration, run the topic loop, and join the topic texts with
blank-line separators. -/
def generate_main_content (env : Env) (sd : StructureData) (target_words : Nat)
    (include_examples : Bool) (ctx : Ctx) : Except Err (String × Ctx) :=
  let total_duration := totalDuration sd.topics
  match buildTopicWords sd.topics target_words total_duration with
  | .error e => .error e
  | .ok topic_words =>
    match mainLoop env sd topic_words include_examples sd.topics ctx with
    | .error e => .error e
    | .ok (topic_contents, ctxFinal) =>
      .ok (String.intercalate "\n\n" topic_contents, ctxFinal)

/- ---------------- orchestrator ---------------- -/

/-- `transform_to_lecture` (lines 189-320). The `try` block (lines 231-312)
generates intro, main, practical and summary; `full_content` is assigned only
at line 301, after all four sections succeed. The `except` handler returns
`full_content` when `'full_content' in locals()` — i.e. only when the failure
arose in the validation calls after line 301 — and re-raises otherwise. -/
def transform_to_lecture (env : Env) (text : String) (target_duration : Nat)
    (include_examples : Bool) : Except Err String := do
  let cleaned := env.clean_text text
  let target_words := words_per_minute * target_duration
  let min_words := min_acceptable target_words
  let max_words := max_acceptable target_words
  let structure_json ← generate_detailed_structure env cleaned target_duration
  let sd ← asStructureData structure_json
  let sw := section_words target_words
  let body : Except Err String := do
    let intro ← generate_section env "introduction" sd sw.intro include_examples
      none true false
    let ctx0 : Ctx :=
      { current_section := "introduction",
        covered_topics := [],
        pending_topics := sd.topics.map Topic.title,
        key_terms := ∅,
        current_narrative := pyLastN 1000 intro,
        learning_objectives := sd.learning_objectives }
    let (main_content, ctx1) ← generate_main_content env sd sw.main
      include_examples ctx0
    let ctx2 := { ctx1 with current_section := "main",
                            current_narrative := pyLastN 1000 main_content }
    let practical ← generate_section env "practical" sd sw.practical
      include_examples (some ctx2) false false
    let ctx3 := { ctx2 with current_section := "practical",
                            current_narrative := pyLastN 500 practical }
    let summary ← generate_section env "summary" sd sw.summary include_examples
      (some ctx3) false true
    .ok (intro ++ "\n\n" ++ main_content ++ "\n\n" ++ practical ++ "\n\n" ++ summary)
  match body with
  | .error e => .error e
  | .ok full_content =>
    let total_words := env.count_words full_content
    match validate_word_count total_words target_words min_words max_words with
    | .error _ => .ok full_content
    | .ok _ =>
      let _warnings := validate_coherence full_content sd
      .ok full_content

/- ---------------- predicates about planner outcomes ---------------- -/

/-- The planner's result came from the structured tier: the provider call
succeeded and its (stripped) response was parsed, either directly or from the
outermost brace span. -/
def tier1Parsed (env : Env) (j : Json) : Prop :=
  ∃ raw, env.structuredCall = .ok raw ∧
    (json_loads (pyStrip raw) = some j ∨
     (json_loads (pyStrip raw) = none ∧
      ∃ sub, extract_braces (pyStrip raw) = some sub ∧ json_loads sub = some j))

/- ---------------- concrete runs used by the claims ---------------- -/

/-- Run in which both planner tiers fail (forcing the hardcoded structure)
and the per-section provider succeeds everywhere except the `practical`
call. -/
def envC1 : Env :=
  ⟨id, fun s => (pySplitWs s).length, .error .provider, .error .provider,
   fun label => if label = "practical" then .error .provider else .ok "section text"⟩

/-- Run whose structured-tier response is the valid JSON document `{}`. -/
def envC2 : Env :=
  ⟨id, fun _ => 0, .ok "\x7b\x7d", .error .provider, fun _ => .ok ""⟩

/-- Run with failing providers everywhere (used where the provider outcome is
irrelevant). -/
def envC6 : Env :=
  ⟨id, fun _ => 0, .error .provider, .error .provider, fun _ => .ok ""⟩

/-- A structure with no topics at all. -/
def sdNoTopics : StructureData := ⟨"T", [], [], []⟩

/-- A structure with one topic of duration 0. -/
def sdZeroTopic : StructureData := ⟨"T", [], [⟨"Main Topic", ["c"], 0⟩], []⟩

/-- An empty narrative context. -/
def ctxC6 : Ctx := ⟨"introduction", [], [], ∅, "", [], none⟩

/-- The three-topic structure of the claim about proportional allocation
(durations 10, 10, 10). -/
def sd210 : StructureData :=
  ⟨"T", [], [⟨"A", [], 10⟩, ⟨"B", [], 10⟩, ⟨"C", [], 10⟩], []⟩

/-- The middle topic of `sd210`. -/
def topicB210 : Topic := ⟨"B", [], 10⟩

/-- Run whose line-tier provider call succeeds with only two nonblank
lines. -/
def envC7 : Env :=
  ⟨id, fun _ => 0, .error .provider, .ok "Title\nA", fun _ => .ok ""⟩

/-- Run whose line-tier provider call succeeds with ten nonblank lines. -/
def envC7long : Env :=
  ⟨id, fun _ => 0, .error .provider,
   .ok "L1\nL2\nL3\nL4\nL5\nL6\nL7\nL8\nL9\nL10", fun _ => .ok ""⟩

/-- Run whose per-section provider always answers `"g"`. -/
def envC10 : Env :=
  ⟨id, fun _ => 0, .error .provider, .error .provider, fun _ => .ok "g"⟩

/-- A two-topic structure for the loop-invariant claim. -/
def sdC10 : StructureData :=
  ⟨"T", ["obj"], [⟨"A", ["x"], 1⟩, ⟨"B", ["y"], 2⟩], ["k"]⟩

/-- The context seeded for `sdC10` as the orchestrator does. -/
def ctxC10 : Ctx := ⟨"introduction", [], ["A", "B"], ∅, "", ["obj"], none⟩

/-- A word-quota dict for `sdC10`. -/
def twC10 : List (String × Nat) := [("A", 5), ("B", 7)]

/-- The context after the first iteration of the topic loop on `sdC10`
(fields written exactly as the loop computes them). -/
def ctxC10after : Ctx :=
  { current_section := "introduction",
    covered_topics := [] ++ ["A"],
    pending_topics := ["B"],
    key_terms := ∅ ∪ (["x"] : List String).toFinset,
    current_narrative := pyLastN 1000 "g",
    learning_objectives := ["obj"],
    current_topic := some "A" }

/- ================= theorems ================= -/

/- ---------------- arithmetic helpers ---------------- -/

theorem int_mul_div (t a b : Nat) : int_mul t ((a : ℚ) / (b : ℚ)) = t * a / b := by
  unfold int_mul
  have h : (t : ℚ) * ((a : ℚ) / (b : ℚ)) = ((t * a : Nat) : ℚ) / ((b : Nat) : ℚ) := by
    push_cast
    ring
  rw [h, Int.floor_toNat, Nat.floor_div_eq_div]

theorem int_mul_eq_div (t : Nat) (c : ℚ) (a b : Nat) (hc : c = (a : ℚ) / (b : ℚ)) :
    int_mul t c = t * a / b := by
  rw [hc]
  exact int_mul_div t a b

theorem min_acceptable_eq (t : Nat) : min_acceptable t = t * 95 / 100 :=
  int_mul_eq_div t _ 95 100 (by norm_num)

theorem max_acceptable_eq (t : Nat) : max_acceptable t = t * 105 / 100 :=
  int_mul_eq_div t _ 105 100 (by norm_num)

/- ---------------- C3 ---------------- -/

/-- C3: the claim states `max_acceptable = ceil(1.05 * W * D)`; at `W = 130`,
`D = 1` the code computes `int(130 * 1.05) = 136` (truncation), while the
ceiling of `130 * 1.05 = 136.5` is `137`. The `min_acceptable` half of the
claim holds at the same input. -/
theorem C3_counterexample :
    min_acceptable (words_per_minute * 1) = 123 ∧
    max_acceptable (words_per_minute * 1) = 136 ∧
    Int.toNat ⌈((words_per_minute * 1 : Nat) : ℚ) * (105 / 100)⌉ = 137 := by
  refine ⟨?_, ?_, ?_⟩
  · rw [min_acceptable_eq]
    norm_num [words_per_minute]
  · rw [max_acceptable_eq]
    norm_num [words_per_minute]
  · have hc : ((words_per_minute * 1 : Nat) : ℚ) = 130 := by
      norm_num [words_per_minute]
    have h2 : (⌈(130 : ℚ) * (105 / 100)⌉ : ℤ) = 137 := by
      rw [Int.ceil_eq_iff]
      constructor <;> norm_num
    rw [hc, h2]
    rfl

/-- C3 (amended): for every positive target duration `D` and words-per-minute
`W`, the bounds are `min_acceptable = floor(0.95 * W * D)` and
`max_acceptable = floor(1.05 * W * D)` — both truncations, not a ceiling for
the upper bound. -/
theorem C3_bounds (D W : Nat) :
    min_acceptable (W * D) = W * D * 95 / 100 ∧
    max_acceptable (W * D) = W * D * 105 / 100 :=
  ⟨min_acceptable_eq _, max_acceptable_eq _⟩

/- ---------------- C5 ---------------- -/

/-- C5: for every target duration `D` and words-per-minute `W`, with
`total = W * D`, the four section quotas are `floor(0.1 * total)`,
`floor(0.7 * total)`, `floor(0.15 * total)` and `floor(0.05 * total)`, and
their sum never exceeds `W * D`. -/
theorem C5_section_quotas (D W : Nat) :
    (section_words (W * D)).intro = W * D / 10 ∧
    (section_words (W * D)).main = 7 * (W * D) / 10 ∧
    (section_words (W * D)).practical = 15 * (W * D) / 100 ∧
    (section_words (W * D)).summary = 5 * (W * D) / 100 ∧
    (section_words (W * D)).intro + (section_words (W * D)).main +
      (section_words (W * D)).practical + (section_words (W * D)).summary ≤ W * D := by
  have h1 : (section_words (W * D)).intro = W * D * 1 / 10 :=
    int_mul_eq_div _ _ 1 10 (by norm_num)
  have h2 : (section_words (W * D)).main = W * D * 7 / 10 :=
    int_mul_eq_div _ _ 7 10 (by norm_num)
  have h3 : (section_words (W * D)).practical = W * D * 15 / 100 :=
    int_mul_eq_div _ _ 15 100 (by norm_num)
  have h4 : (section_words (W * D)).summary = W * D * 5 / 100 :=
    int_mul_eq_div _ _ 5 100 (by norm_num)
  refine ⟨?_, ?_, ?_, ?_, ?_⟩ <;> omega

/- ---------------- planner bridge lemmas ---------------- -/

theorem getStrs_map (l : List String) : getStrs (l.map Json.str) = .ok l := by
  induction l with
  | nil => rfl
  | cons x rest ih =>
    have h : getStrs ((x :: rest).map Json.str) =
        Except.bind (getStrs (rest.map Json.str)) (fun ss => Except.ok (x :: ss)) := rfl
    rw [h, ih]
    rfl

theorem asTopic_topicJson (title : String) (kc st : List String) (m : Nat) :
    asTopic (topicJson title kc st m) = .ok ⟨title, kc, m⟩ := by
  have h : asTopic (topicJson title kc st m) =
      Except.bind (getStrs (kc.map Json.str)) (fun kc2 => Except.ok ⟨title, kc2, m⟩) := rfl
  rw [h, getStrs_map]
  rfl

theorem asTopics_line (topics : List String) (m : Nat) :
    asTopics (topics.map (fun topic =>
        topicJson topic [topic] ["Overview", "Details", "Examples"] m)) =
      .ok (topics.map (fun topic => ⟨topic, [topic], m⟩)) := by
  induction topics with
  | nil => rfl
  | cons x rest ih =>
    have h : asTopics ((x :: rest).map (fun topic =>
        topicJson topic [topic] ["Overview", "Details", "Examples"] m)) =
      Except.bind (asTopic (topicJson x [x] ["Overview", "Details", "Examples"] m))
        (fun t => Except.bind (asTopics (rest.map (fun topic =>
          topicJson topic [topic] ["Overview", "Details", "Examples"] m)))
          (fun ts => Except.ok (t :: ts))) := rfl
    rw [h, asTopic_topicJson, ih]
    rfl

theorem asStructureData_line (title : String) (objectives topics terms : List String)
    (m : Nat) :
    asStructureData (lineStructureJson title objectives topics terms m) =
      .ok ⟨title, objectives, topics.map (fun topic => ⟨topic, [topic], m⟩), terms⟩ := by
  have h : asStructureData (lineStructureJson title objectives topics terms m) =
      Except.bind (getStrs (objectives.map Json.str)) (fun lo =>
        Except.bind (asTopics (topics.map (fun topic =>
          topicJson topic [topic] ["Overview", "Details", "Examples"] m)))
          (fun ts => Except.bind (getStrs (terms.map Json.str)) (fun kt =>
            Except.ok ⟨title, lo, ts, kt⟩))) := rfl
  rw [h, getStrs_map, asTopics_line]
  show Except.bind (getStrs (terms.map Json.str)) _ = _
  rw [getStrs_map]
  rfl

theorem isValid_minimal (d : Nat) : isValidStructure (minimalStructureJson d) = true := rfl

theorem isValid_line (title : String) (objectives topics terms : List String)
    (m : Nat) (h : topics ≠ []) :
    isValidStructure (lineStructureJson title objectives topics terms m) = true := by
  unfold isValidStructure
  rw [asStructureData_line]
  simp [h]

/- ---------------- fallback-tier lemmas ---------------- -/

theorem nonblank_mem_ne (s : String) (x : String) (hx : x ∈ nonblankLines s) :
    x ≠ "" := by
  unfold nonblankLines at hx
  have := List.of_mem_filter hx
  simpa using this

theorem slice_filter_id (l : List String) (hl : ∀ x ∈ l, x ≠ "") (a b : Nat) :
    (((l.drop a).take b).filter (fun x => x ≠ "")).take b = (l.drop a).take b := by
  have h1 : ((l.drop a).take b).filter (fun x => x ≠ "") = (l.drop a).take b := by
    apply List.filter_eq_self.mpr
    intro x hx
    have hxl : x ∈ l := List.mem_of_mem_drop (List.mem_of_mem_take hx)
    simpa using hl x hxl
  rw [h1, List.take_take, min_self]

theorem fallback_from_lines_short (content : String) (d : Nat)
    (h : (nonblankLines content).length ≤ 4) :
    fallback_from_lines content d = .error .zeroDivision := by
  simp only [fallback_from_lines]
  have hdrop : (nonblankLines content).drop 4 = [] := by
    rw [List.drop_eq_nil_iff]
    exact h
  rw [hdrop]
  rfl

theorem fallback_from_lines_long (content : String) (d : Nat)
    (h : 5 ≤ (nonblankLines content).length) :
    fallback_from_lines content d =
      .ok (lineStructureJson ((nonblankLines content).headD "Lecture")
        (((nonblankLines content).drop 1).take 3)
        (((nonblankLines content).drop 4).take 3)
        (((nonblankLines content).drop 7).take 3)
        (int_mul d (7 / 10) / (((nonblankLines content).drop 4).take 3).length)) := by
  have hne : ∀ x ∈ nonblankLines content, x ≠ "" :=
    fun x hx => nonblank_mem_ne content x hx
  simp only [fallback_from_lines]
  rw [slice_filter_id _ hne 1 3, slice_filter_id _ hne 4 3, slice_filter_id _ hne 7 3]
  have hlen : ¬ ((((nonblankLines content).drop 4).take 3).length = 0) := by
    rw [List.length_take, List.length_drop]
    omega
  rw [if_neg hlen]

theorem isValid_fallback (env : Env) (text : String) (d : Nat) :
    isValidStructure (generate_fallback_structure env text d) = true := by
  cases henv : env.fallbackCall with
  | error e =>
    simp only [generate_fallback_structure, henv]
    exact isValid_minimal d
  | ok content =>
    rcases le_or_lt (nonblankLines content).length 4 with hle | hlt
    · simp only [generate_fallback_structure, henv,
        fallback_from_lines_short content d hle]
      exact isValid_minimal d
    · simp only [generate_fallback_structure, henv,
        fallback_from_lines_long content d hlt]
      apply isValid_line
      intro hnil
      have : (((nonblankLines content).drop 4).take 3).length = 0 := by
        rw [hnil]
        rfl
      rw [List.length_take, List.length_drop] at this
      omega

/- ---------------- C2 ---------------- -/

/-- C2: the claim states the planner always returns a structurally valid
structure with at least one topic; but a provider response that is valid JSON
while not matching the schema — here the document `{}` — is returned as-is
by the structured tier, and the result has none of the required fields and no
topics. -/
theorem C2_counterexample :
    generate_detailed_structure envC2 "text" 30 = .ok (Json.obj []) ∧
    isValidStructure (Json.obj []) = false :=
  ⟨rfl, rfl⟩

/-- C2 (amended): the planner never raises, for every provider behaviour; and
whenever its result does not come from a successful structured-tier parse
(returned unvalidated), the result is a structurally valid structure with at
least one topic. -/
theorem C2_planner_never_raises (env : Env) (text : String) (d : Nat) :
    ∃ j, generate_detailed_structure env text d = .ok j ∧
      (tier1Parsed env j ∨ isValidStructure j = true) := by
  unfold generate_detailed_structure
  cases hsc : env.structuredCall with
  | error e =>
    exact ⟨generate_fallback_structure env text d, rfl,
      Or.inr (isValid_fallback env text d)⟩
  | ok raw =>
    dsimp only
    cases hjl : json_loads (pyStrip raw) with
    | some j =>
      exact ⟨j, rfl, Or.inl ⟨raw, hsc, Or.inl hjl⟩⟩
    | none =>
      dsimp only
      cases heb : extract_braces (pyStrip raw) with
      | none =>
        exact ⟨generate_fallback_structure env text d, rfl,
          Or.inr (isValid_fallback env text d)⟩
      | some sub =>
        dsimp only
        cases hjl2 : json_loads sub with
        | none =>
          exact ⟨generate_fallback_structure env text d, rfl,
            Or.inr (isValid_fallback env text d)⟩
        | some j =>
          exact ⟨j, rfl, Or.inl ⟨raw, hsc, Or.inr ⟨hjl, sub, heb, hjl2⟩⟩⟩

/- ---------------- C7 ---------------- -/

/-- C7: the claim states the hardcoded single-topic structure is returned
only when the line tier's provider call itself fails; but a successful
response with fewer than five nonblank lines (here two) leaves the topic
slice empty, the internal `topic_minutes = main_time // len(topics)` raises
`ZeroDivisionError`, and the caught exception yields the hardcoded structure
despite the successful call. -/
theorem C7_counterexample :
    envC7.fallbackCall = .ok "Title\nA" ∧
    generate_fallback_structure envC7 "text" 10 = minimalStructureJson 10 :=
  ⟨rfl, rfl⟩

/-- C7 (amended): on a successful line-tier response with at least five
nonblank lines, the result is built from the lines — line 0 the title, lines
1–3 the objectives, lines 4–6 the topics, lines 7–9 the terms, with missing
later lines giving shorter lists; with at most four nonblank lines the empty
topic slice makes the internal division raise and the hardcoded structure is
returned; and a failing provider call also yields the hardcoded structure. -/
theorem C7_line_tier (env : Env) (text : String) (d : Nat) :
    (∀ content, env.fallbackCall = .ok content →
        5 ≤ (nonblankLines content).length →
        generate_fallback_structure env text d =
          lineStructureJson ((nonblankLines content).headD "Lecture")
            (((nonblankLines content).drop 1).take 3)
            (((nonblankLines content).drop 4).take 3)
            (((nonblankLines content).drop 7).take 3)
            (int_mul d (7 / 10) / (((nonblankLines content).drop 4).take 3).length)) ∧
    (∀ content, env.fallbackCall = .ok content →
        (nonblankLines content).length ≤ 4 →
        generate_fallback_structure env text d = minimalStructureJson d) ∧
    (∀ e, env.fallbackCall = .error e →
        generate_fallback_structure env text d = minimalStructureJson d) := by
  refine ⟨?_, ?_, ?_⟩
  · intro content hc hlen
    simp only [generate_fallback_structure, hc, fallback_from_lines_long content d hlen]
  · intro content hc hlen
    simp only [generate_fallback_structure, hc, fallback_from_lines_short content d hlen]
  · intro e hc
    simp only [generate_fallback_structure, hc]

/-- C7 witness: a ten-line response is sliced into title, objectives, topics
and terms exactly as the amended claim states. -/
theorem C7_witness :
    generate_fallback_structure envC7long "text" 10 =
      lineStructureJson "L1" ["L2", "L3", "L4"] ["L5", "L6", "L7"]
        ["L8", "L9", "L10"] (int_mul 10 (7 / 10) / 3) :=
  (C7_line_tier envC7long "text" 10).1 "L1\nL2\nL3\nL4\nL5\nL6\nL7\nL8\nL9\nL10"
    rfl (by decide)

/- ---------------- C1 ---------------- -/

/-- C1: evaluation at the failing input of the code-bug claim. Both planner
tiers fail (hardcoded structure, one topic of duration 5), the introduction
and the single main-topic generation succeed, the practical call raises — and
`transform_to_lecture` re-raises the provider error instead of returning the
intro+main partial concatenation, because `full_content` is assigned only
after all four sections succeed and the `'full_content' in locals()` check in
the handler therefore fails. -/
theorem C1_practical_failure_reraised :
    envC1.gen "introduction" = .ok "section text" ∧
    envC1.gen "main_topic_Main Topic" = .ok "section text" ∧
    envC1.gen "practical" = .error .provider ∧
    transform_to_lecture envC1 "input transcript" 10 true = .error .provider := by
  refine ⟨?_, ?_, ?_, ?_⟩ <;> rfl

/- ---------------- C6 ---------------- -/

/-- C6: the claim quantifies over every structure whose topics all have zero
duration; the structure with no topics at all satisfies that vacuously, yet
the per-topic loop never runs, no division is performed, and
`_generate_main_content` returns normally (the empty join) instead of
faulting. -/
theorem C6_counterexample :
    (sdNoTopics.topics.all (fun t => t.duration_minutes == 0)) = true ∧
    generate_main_content envC6 sdNoTopics 100 true ctxC6 = .ok ("", ctxC6) :=
  ⟨rfl, rfl⟩

/-- C6 (amended): for every structure with at least one topic, all of whose
topics have `duration_minutes = 0`, the proportional allocation divides by
the zero total duration, unguarded, and `_generate_main_content` raises
`ZeroDivisionError`. -/
theorem C6_zero_total_duration_faults (env : Env) (sd : StructureData) (w : Nat)
    (ie : Bool) (ctx : Ctx) (hne : sd.topics ≠ [])
    (hz : ∀ t ∈ sd.topics, t.duration_minutes = 0) :
    generate_main_content env sd w ie ctx = .error .zeroDivision := by
  have htot : totalDuration sd.topics = 0 := by
    unfold totalDuration
    apply List.sum_eq_zero
    intro x hx
    obtain ⟨t, ht, rfl⟩ := List.mem_map.mp hx
    exact hz t ht
  obtain ⟨t0, rest, hcons⟩ := List.exists_cons_of_ne_nil hne
  have hb : buildTopicWords sd.topics w (totalDuration sd.topics) =
      .error .zeroDivision := by
    rw [htot, hcons]
    simp [buildTopicWords]
  simp only [generate_main_content, hb]

/-- C6 witness: a structure with one topic of duration 0 makes
`_generate_main_content` raise `ZeroDivisionError`. -/
theorem C6_witness :
    generate_main_content envC6 sdZeroTopic 100 true ctxC6 = .error .zeroDivision :=
  C6_zero_total_duration_faults envC6 sdZeroTopic 100 true ctxC6 (by decide)
    (by decide)

/- ---------------- C4 ---------------- -/

theorem find?_key_map (l : List Topic) (g : Topic → Nat) (t : Topic)
    (hmem : t ∈ l) (hnodup : (l.map Topic.title).Nodup) :
    (l.map (fun t2 => (t2.title, g t2))).find? (fun p => p.1 == t.title) =
      some (t.title, g t) := by
  induction l with
  | nil => cases hmem
  | cons t0 rest ih =>
    rcases List.mem_cons.mp hmem with h | h
    · subst h
      simp [List.find?]
    · have h0 : t0.title ∉ rest.map Topic.title := (List.nodup_cons.mp hnodup).1
      have hne : (t0.title == t.title) = false := by
        apply beq_false_of_ne
        intro he
        exact h0 (he ▸ List.mem_map_of_mem Topic.title h)
      simp only [List.map_cons, List.find?_cons, hne]
      exact ih h (List.nodup_cons.mp hnodup).2

theorem dictGet_map (l : List Topic) (g : Topic → Nat) (t : Topic)
    (hmem : t ∈ l) (hnodup : (l.map Topic.title).Nodup) :
    dictGet (l.map (fun t2 => (t2.title, g t2))) t.title = .ok (g t) := by
  unfold dictGet
  have hrev : (l.map (fun t2 => (t2.title, g t2))).reverse =
      l.reverse.map (fun t2 => (t2.title, g t2)) := (List.map_reverse _ _).symm
  rw [hrev, find?_key_map l.reverse g t (List.mem_reverse.mpr hmem)
    (by rw [List.map_reverse]; exact List.nodup_reverse.mpr hnodup)]

theorem buildTopicWords_ok (topics : List Topic) (q total : Nat) (h : total ≠ 0) :
    buildTopicWords topics q total =
      .ok (topics.map (fun t => (t.title, q * t.duration_minutes / total))) := by
  induction topics with
  | nil => rfl
  | cons t rest ih =>
    simp only [buildTopicWords, if_neg h, ih]
    simp [int_mul_div, List.map_cons]
    rfl

/-- C4: when the structure's topic titles are unique and the total topic
duration is nonzero, the dict-building loop assigns every topic the quota
`floor(main_quota * duration_minutes / total_duration)`, and looking the
topic up in the dict yields exactly that value. The three-topic
`[10, 10, 10]` / 210-word instance of the claim is the witness. -/
theorem C4_topic_quota (sd : StructureData) (main_quota : Nat) (t : Topic)
    (hmem : t ∈ sd.topics)
    (hnodup : (sd.topics.map Topic.title).Nodup)
    (htot : totalDuration sd.topics ≠ 0) :
    buildTopicWords sd.topics main_quota (totalDuration sd.topics) =
      .ok (sd.topics.map (fun t2 =>
        (t2.title, main_quota * t2.duration_minutes / totalDuration sd.topics))) ∧
    dictGet (sd.topics.map (fun t2 =>
        (t2.title, main_quota * t2.duration_minutes / totalDuration sd.topics)))
      t.title = .ok (main_quota * t.duration_minutes / totalDuration sd.topics) :=
  ⟨buildTopicWords_ok _ _ _ htot,
   dictGet_map sd.topics
     (fun t2 => main_quota * t2.duration_minutes / totalDuration sd.topics) t hmem
     hnodup⟩

/-- C4 witness: three topics of duration 10 each and a 210-word main quota
give every topic exactly 70 words. -/
theorem C4_witness :
    buildTopicWords sd210.topics 210 (totalDuration sd210.topics) =
      .ok [("A", 70), ("B", 70), ("C", 70)] ∧
    dictGet [("A", 70), ("B", 70), ("C", 70)] "B" = .ok 70 :=
  C4_topic_quota sd210 210 topicB210 (by decide) (by decide) (by decide)

/- ---------------- C8 ---------------- -/

/-- C8: for positive total, target, min and max word counts the word-count
validator never raises — the only raise point is the division by
`target_words`, excluded by positivity — and it logs at error severity
exactly when the deviation exceeds 0.20, else at warning severity exactly
when the total lies outside `[min_words, max_words]`, else it is silent. -/
theorem C8_word_count_validator (total target minw maxw : Nat)
    (h1 : 0 < total) (h2 : 0 < target) (h3 : 0 < minw) (h4 : 0 < maxw) :
    validate_word_count total target minw maxw =
      .ok (if |(total : ℚ) - (target : ℚ)| / (target : ℚ) > large_deviation_threshold
            then Sev.errorLog
            else if total < minw ∨ maxw < total then Sev.warningLog
            else Sev.silent) := by
  simp only [validate_word_count]
  rw [if_neg (Nat.pos_iff_ne_zero.mp h2)]
  by_cases hd : |(total : ℚ) - (target : ℚ)| / (target : ℚ) > large_deviation_threshold
  · rw [if_pos hd, if_pos hd]
  · rw [if_neg hd, if_neg hd]
    by_cases hr : total < minw ∨ maxw < total
    · rw [if_pos hr, if_pos hr]
    · rw [if_neg hr, if_neg hr]

/-- C8 witness: an exactly-on-target run is accepted silently without an
exception. -/
theorem C8_witness : validate_word_count 100 100 95 105 = .ok Sev.silent := by
  have h := C8_word_count_validator 100 100 95 105 (by norm_num) (by norm_num)
    (by norm_num) (by norm_num)
  rw [h]
  norm_num [large_deviation_threshold]

/- ---------------- C9 ---------------- -/

theorem foldl_append_if_pos {α β : Type} (p : α → Bool) (f : α → β) :
    ∀ (l : List α) (acc : List β),
      l.foldl (fun a x => if p x then a ++ [f x] else a) acc =
        acc ++ (l.filter p).map f := by
  intro l
  induction l with
  | nil => intro acc; simp
  | cons x rest ih =>
    intro acc
    by_cases h : p x
    · simp [List.foldl_cons, h, ih]
    · simp [List.foldl_cons, h, ih]

theorem foldl_append_if_neg {α β : Type} (p : α → Bool) (f : α → β) :
    ∀ (l : List α) (acc : List β),
      l.foldl (fun a x => if p x then a else a ++ [f x]) acc =
        acc ++ (l.filter (fun x => !p x)).map f := by
  intro l
  induction l with
  | nil => intro acc; simp
  | cons x rest ih =>
    intro acc
    by_cases h : p x
    · simp [List.foldl_cons, h, ih]
    · simp [List.foldl_cons, h, ih]

theorem foldl_append_ite {α β : Type} (p : α → Prop) [DecidablePred p] (f : α → β) :
    ∀ (l : List α) (acc : List β),
      l.foldl (fun a x => if p x then a ++ [f x] else a) acc =
        acc ++ (l.filter (fun x => decide (p x))).map f := by
  intro l
  induction l with
  | nil => intro acc; simp
  | cons x rest ih =>
    intro acc
    by_cases h : p x
    · simp [List.foldl_cons, h, ih]
    · simp [List.foldl_cons, h, ih]

/-- C9: the coherence validator's warning list is exactly one objective
warning per learning objective none of whose whitespace-split tokens occurs
(case-insensitively) in the text, followed by one key-term warning per key
term with fewer than two case-insensitive occurrences, followed by one topic
warning per topic none of whose key concepts occurs — the three checks
independent, none short-circuiting the others. -/
theorem C9_coherence_warnings (content : String) (sd : StructureData) :
    validate_coherence content sd =
      (sd.learning_objectives.filter
          (fun objective => !objectiveCovered content objective)).map
        Warning.objectiveWarn
      ++ (sd.key_terms.filter
          (fun term => keyTermCount content term < 2)).map Warning.keyTermWarn
      ++ (sd.topics.filter (fun t => !topicCovered content t)).map
          (fun t => Warning.topicWarn t.title) := by
  simp only [validate_coherence]
  rw [foldl_append_if_neg (fun objective => objectiveCovered content objective)
    Warning.objectiveWarn sd.learning_objectives []]
  rw [foldl_append_ite (fun term => keyTermCount content term < 2)
    Warning.keyTermWarn sd.key_terms]
  rw [foldl_append_if_neg (fun t => topicCovered content t)
    (fun t => Warning.topicWarn t.title) sd.topics]
  simp [List.append_assoc]

/- ---------------- C10 ---------------- -/

theorem mainLoop_ctx (env : Env) (sd : StructureData) (tw : List (String × Nat))
    (ie : Bool) :
    ∀ (ts : List Topic) (ctx : Ctx) (rest txts : List String) (ctx2 : Ctx),
      ctx.pending_topics = ts.map Topic.title ++ rest →
      mainLoop env sd tw ie ts ctx = .ok (txts, ctx2) →
      ctx2.covered_topics = ctx.covered_topics ++ ts.map Topic.title ∧
      ctx2.pending_topics = rest ∧
      ctx2.key_terms = ctx.key_terms ∪ ((ts.map Topic.key_concepts).flatten).toFinset := by
  intro ts
  induction ts with
  | nil =>
    intro ctx rest txts ctx2 hp hrun
    simp only [mainLoop] at hrun
    cases hrun
    simp only [List.map_nil, List.nil_append] at hp
    simp [hp]
  | cons t ts2 ih =>
    intro ctx rest txts ctx2 hp hrun
    rw [List.map_cons, List.cons_append] at hp
    have hrf : removeFirst (t.title :: (ts2.map Topic.title ++ rest)) t.title
        = .ok (ts2.map Topic.title ++ rest) := by simp [removeFirst]
    simp only [mainLoop] at hrun
    split at hrun
    · exact Except.noConfusion hrun
    · rw [hp, hrf] at hrun
      dsimp only at hrun
      split at hrun
      · exact Except.noConfusion hrun
      · split at hrun
        · exact Except.noConfusion hrun
        · rename_i restContents ctxFinal heqrec
          cases hrun
          obtain ⟨hc, hpend, hkt⟩ := ih _ _ _ _ rfl heqrec
          refine ⟨?_, hpend, ?_⟩
          · rw [hc]
            simp [List.append_assoc]
          · rw [hkt]
            simp [List.toFinset_append, Finset.union_assoc]

/-- C10: when the structure's topic titles are unique, `pending_topics` was
seeded with all of them and `covered_topics` with the empty list, then after
any number `k` of completed iterations of the main-content topic loop the
covered titles are the first `k` titles in structure order, the pending
titles are the remaining ones, their concatenation is a permutation of the
full title list, and the key-term set is the initial set unioned with the key
concepts of the topics processed so far — in particular it only grows. -/
theorem C10_main_loop_invariant (env : Env) (sd : StructureData)
    (tw : List (String × Nat)) (ie : Bool) (ctx0 : Ctx) (k : Nat)
    (txts : List String) (ctxk : Ctx)
    (hnodup : (sd.topics.map Topic.title).Nodup)
    (hpend : ctx0.pending_topics = sd.topics.map Topic.title)
    (hcov : ctx0.covered_topics = [])
    (hrun : mainLoop env sd tw ie (sd.topics.take k) ctx0 = .ok (txts, ctxk)) :
    ctxk.covered_topics = (sd.topics.take k).map Topic.title ∧
    ctxk.pending_topics = (sd.topics.drop k).map Topic.title ∧
    (ctxk.covered_topics ++ ctxk.pending_topics).Perm (sd.topics.map Topic.title) ∧
    ctxk.key_terms =
      ctx0.key_terms ∪ (((sd.topics.take k).map Topic.key_concepts).flatten).toFinset ∧
    ctx0.key_terms ⊆ ctxk.key_terms := by
  have hsplit : ctx0.pending_topics =
      (sd.topics.take k).map Topic.title ++ (sd.topics.drop k).map Topic.title := by
    rw [← List.map_append, List.take_append_drop]
    exact hpend
  obtain ⟨hc, hp2, hkt⟩ :=
    mainLoop_ctx env sd tw ie (sd.topics.take k) ctx0 _ txts ctxk hsplit hrun
  refine ⟨by rw [hc, hcov]; simp, hp2, ?_, hkt, ?_⟩
  · rw [hc, hcov, hp2]
    simp only [List.nil_append]
    rw [← List.map_append, List.take_append_drop]
  · rw [hkt]
    exact Finset.subset_union_left

/-- C10 witness: one completed iteration on the two-topic structure moves
`"A"` from pending to covered, keeps `"B"` pending, and grows the key-term
set by `"x"`. -/
theorem C10_witness :
    ctxC10after.covered_topics = ((sdC10.topics.take 1).map Topic.title) ∧
    ctxC10after.pending_topics = ((sdC10.topics.drop 1).map Topic.title) ∧
    (ctxC10after.covered_topics ++ ctxC10after.pending_topics).Perm
      (sdC10.topics.map Topic.title) ∧
    ctxC10after.key_terms =
      ctxC10.key_terms ∪
        (((sdC10.topics.take 1).map Topic.key_concepts).flatten).toFinset ∧
    ctxC10.key_terms ⊆ ctxC10after.key_terms :=
  C10_main_loop_invariant envC10 sdC10 twC10 true ctxC10 1 ["g"] ctxC10after
    (by decide) rfl rfl rfl
